import Mathlib

/-!
Verification of the data-analysis agent notebook: a seeded synthetic car-sales
dataset, a query tool wrapping a restricted expression evaluator that converts
evaluation failures into retry signals, a bounded-retry orchestrator
configuration, and a question-driver function.

Conventions of the embedding:
* Calendar dates are proleptic day ordinals (`Nat`); `start_date` is the
  ordinal of 2022-01-01.
* Monetary amounts rounded to 2 decimals are stored as integer cents;
  quantities rounded to 1 decimal are stored as integer tenths.  Their exact
  numeric values are recovered as rationals when queried.
* Fallible operations return `Except`.
-/

set_option maxRecDepth 100000

/-- Number of rows generated for the sample data (`n_rows = 1000` in the notebook). -/
def n_rows : Nat := 1000

/-- Day ordinal of the fixed epoch `datetime(2022, 1, 1)`. -/
def start_date : Nat := 738156

/-- Car makes enumeration from the notebook. -/
def makes : List String :=
  ["Toyota", "Honda", "Ford", "Chevrolet", "Nissan", "BMW", "Mercedes", "Audi", "Hyundai", "Kia"]

/-- Car models enumeration from the notebook. -/
def models : List String := ["Sedan", "SUV", "Truck", "Hatchback", "Coupe", "Van"]

/-- Car colors enumeration from the notebook. -/
def colors : List String := ["Red", "Blue", "Black", "White", "Silver", "Gray", "Green"]

/-- Engine sizes enumeration `[1.6, 2.0, 2.5, 3.0, 3.5, 4.0]`, stored in tenths. -/
def engine_sizes : List Nat := [16, 20, 25, 30, 35, 40]

/-- Sales people enumeration from the notebook. -/
def sales_people : List String := ["Alice", "Bob", "Charlie", "David", "Eva"]

/-- Modulus of the 64-bit random-state model, `2 ^ 64`. -/
def m64 : Nat := 18446744073709551616

/-- Multiplier of the linear-congruential random-state model. -/
def aMul : Nat := 6364136223846793005

/-- Increment of the linear-congruential random-state model. -/
def aInc : Nat := 1442695040888963407

/-- Modelled from the spec: the process-global NumPy random state (a Mersenne
Twister, external to this repository) is abstracted as a single 64-bit integer
state evolving by the linear-congruential step
`s ↦ (aMul * s + aInc) % m64`.  `stateAt s k` is the state after `k` draws
from initial state `s`, in closed form so that it evaluates without a deep
recursion: the sum `aMul ^ 0 + ⋯ + aMul ^ (k - 1)` is
`(aMul ^ k - 1) / (aMul - 1)`.  The exact distribution of NumPy draws is not
reproduced, only their deterministic dependence on the global state. -/
def stateAt (s k : Nat) : Nat :=
  ((aMul ^ k % m64) * s + aInc * ((aMul ^ k - 1) / (aMul - 1))) % m64

/-- Modelled from the spec: `np.random.seed(seed)` resets the global state to a
value determined by the seed alone. -/
def np_random_seed (seed : Nat) : Nat := seed % m64

/-- Modelled from the spec: one vectorized NumPy sampling call (`choice`,
`randint`, `uniform`), which draws `n` values below `bound` from the global
state `s` and returns the advanced state.  Draw `i` reduces the high bits of
the state after `i + 1` steps modulo the bound. -/
def drawNats (bound n s : Nat) : List Nat × Nat :=
  ((List.range n).map (fun i => stateAt s (i + 1) / 65536 % bound), stateAt s n)

/-- One row of the synthetic car-sales dataset, one field per column of the
notebook schema.  Every field is total (present and non-null by construction). -/
structure Record where
  date : Nat
  make : String
  model : String
  color : String
  year : Nat
  priceCents : Nat
  mileage : Nat
  engineTenths : Nat
  fuelTenths : Nat
  salesPerson : String
deriving DecidableEq

instance : Inhabited Record :=
  ⟨{ date := 0, make := "", model := "", color := "", year := 0, priceCents := 0,
     mileage := 0, engineTenths := 0, fuelTenths := 0, salesPerson := "" }⟩

/-- The raw columns of the `data` dictionary built by the notebook, before the
rows are assembled into a DataFrame, together with the final random state. -/
structure RawColumns where
  makeIdx : List Nat
  modelIdx : List Nat
  colorIdx : List Nat
  yearOff : List Nat
  priceOff : List Nat
  mileOff : List Nat
  engineIdx : List Nat
  fuelOff : List Nat
  spIdx : List Nat
  finalState : Nat

/-- The `data` dictionary of the notebook: nine random columns drawn in source
order (Make, Model, Color, Year, Price, Mileage, EngineSize, FuelEfficiency,
SalesPerson), threading the global random state between the sampling calls.
Year is an offset into `[2015, 2022]`, Price an offset in cents into
`[20000.00, 80000.00]`, Mileage a value in `[0, 100000]`, FuelEfficiency an
offset in tenths into `[20.0, 40.0]`. -/
def gen_columns (n s : Nat) : RawColumns :=
  let mk := drawNats 10 n s
  let md := drawNats 6 n mk.2
  let co := drawNats 7 n md.2
  let yr := drawNats 8 n co.2
  let pr := drawNats 6000001 n yr.2
  let mi := drawNats 100001 n pr.2
  let en := drawNats 6 n mi.2
  let fu := drawNats 201 n en.2
  let sp := drawNats 5 n fu.2
  ⟨mk.1, md.1, co.1, yr.1, pr.1, mi.1, en.1, fu.1, sp.1, sp.2⟩

/-- Row `i` of the DataFrame assembled from the raw columns: the date sequence
contributes `start_date + i`, and each categorical index selects from its
enumeration. -/
def row (c : RawColumns) (i : Nat) : Record :=
  { date := start_date + i
    make := makes.getD (c.makeIdx.getD i 0) ""
    model := models.getD (c.modelIdx.getD i 0) ""
    color := colors.getD (c.colorIdx.getD i 0) ""
    year := 2015 + c.yearOff.getD i 0
    priceCents := 2000000 + c.priceOff.getD i 0
    mileage := c.mileOff.getD i 0
    engineTenths := engine_sizes.getD (c.engineIdx.getD i 0) 0
    fuelTenths := 200 + c.fuelOff.getD i 0
    salesPerson := sales_people.getD (c.spIdx.getD i 0) "" }

/-- The rows of `pd.DataFrame(data)`, in generation order. -/
def gen_rows (n s : Nat) : List Record := (List.range n).map (row (gen_columns n s))

/-- Ordering used by `df.sort_values(by := Date)`: comparison of the date field. -/
def byDate (a b : Record) : Prop := a.date ≤ b.date

instance : DecidableRel byDate := fun a b => Nat.decLe a.date b.date

/-- The full dataset generation of the notebook: build the raw columns from the
global random state, assemble the DataFrame rows, and sort them by date.
Returns the sorted rows together with the advanced global random state. -/
def generateData (n s : Nat) : List Record × Nat :=
  (List.insertionSort byDate (gen_rows n s), (gen_columns n s).finalState)

/-- The process-wide DataFrame `df`: 1000 rows generated right after
`np.random.seed(42)`. -/
def df : List Record := (generateData n_rows (np_random_seed 42)).1

/-- First independent execution of the generation cell from the seeded state. -/
def df_run1 : List Record := (generateData n_rows (np_random_seed 42)).1

/-- Second independent execution of the generation cell from the seeded state. -/
def df_run2 : List Record := (generateData n_rows (np_random_seed 42)).1

/-- The global random state left behind by the first (seeded) generation. -/
def df_state1 : Nat := (generateData n_rows (np_random_seed 42)).2

/-- The dataset produced by running the generation cell a second time without
re-seeding, i.e. from the advanced global state. -/
def df_second : List Record := (generateData n_rows df_state1).1

/-- The single-quote character as a one-character string, used to spell the
query expressions of the notebook. -/
def quoteStr : String := String.mk [Char.ofNat 39]

/-- A value produced by the restricted evaluator: a count or an exact numeric
value.  Floating-point results of the host library are modelled as exact
rationals. -/
inductive Value where
  | vNat : Nat → Value
  | vRat : ℚ → Value
deriving DecidableEq

/-- Textual serialization of an evaluator value, the model of `str(...)`:
counts print in decimal, rationals as `numerator/denominator`. -/
def Value.toStr : Value → String
  | .vNat n => toString n
  | .vRat q => toString q.num ++ "/" ++ toString q.den

/-- Arithmetic mean of a list of rationals. -/
def listMean (l : List ℚ) : ℚ := l.sum / l.length

/-- Exact numeric value of the Year column of a record. -/
def yearQ (r : Record) : ℚ := r.year

/-- Exact numeric value of the Price column of a record (cents over 100). -/
def priceQ (r : Record) : ℚ := (r.priceCents : ℚ) / 100

/-- Exact numeric value of the Mileage column of a record. -/
def mileageQ (r : Record) : ℚ := r.mileage

/-- Exact numeric value of the EngineSize column of a record (tenths over 10). -/
def engineQ (r : Record) : ℚ := (r.engineTenths : ℚ) / 10

/-- Exact numeric value of the FuelEfficiency column of a record (tenths over 10). -/
def fuelQ (r : Record) : ℚ := (r.fuelTenths : ℚ) / 10

/-- Mean of a named numeric column over the dataset, or `none` when the name
is not a numeric column of the schema.  Column names are matched exactly, so
lookups are case-sensitive. -/
def numericColMean (c : String) (d : List Record) : Option ℚ :=
  if c = "Year" then some (listMean (d.map yearQ))
  else if c = "Price" then some (listMean (d.map priceQ))
  else if c = "Mileage" then some (listMean (d.map mileageQ))
  else if c = "EngineSize" then some (listMean (d.map engineQ))
  else if c = "FuelEfficiency" then some (listMean (d.map fuelQ))
  else none

/-- Leading characters of a column-mean query, `df[` followed by a quote. -/
def meanQueryPre : String := "df[" ++ quoteStr

/-- Trailing characters of a column-mean query, a quote followed by `].mean()`. -/
def meanQuerySuf : String := quoteStr ++ "].mean()"

/-- The column-mean query string for column `c`, as the language model writes
it in the notebook transcript. -/
def meanQuery (c : String) : String := meanQueryPre ++ c ++ meanQuerySuf

/-- Modelled from the spec: the restricted expression evaluator `pd.eval`
(part of the external dataframe library, not of this repository).  It
supports the row-count attribute expression `df.shape[0]` and single-column
mean aggregates over the dataset bound as the evaluation target; an unknown
column name or any other expression fails with a diagnostic.  In particular
the evaluator disallows function calls other than whitelisted math
functions, so `len(df)` fails — the notebook transcript shows it being
retried and replaced by `df.shape[0]`.  Evaluation never mutates the
target. -/
def pd_eval (query : String) (d : List Record) : Except String Value :=
  if query = "df.shape[0]" then .ok (.vNat d.length)
  else if query.startsWith meanQueryPre && query.endsWith meanQuerySuf then
    let c := (query.drop 4).dropRight 9
    match numericColMean c d with
    | some m => .ok (.vRat m)
    | none => .error ("KeyError: " ++ c)
  else .error ("unsupported expression: " ++ query)

/-- The retry signal raised by the query tool, carrying the diagnostic shown
to the language model (`ModelRetry` in the notebook). -/
structure ModelRetry where
  message : String
deriving DecidableEq

/-- The diagnostic text built by the tool on a failed evaluation:
`query: \x60{query}\x60 is not a valid query. Reason: \x60{e}\x60`. -/
def retryMessage (query reason : String) : String :=
  "query: `" ++ query ++ "` is not a valid query. Reason: `" ++ reason ++ "`"

/-- The query tool `df_query` of the notebook: evaluate the query against the
bound dataset with the restricted evaluator; on success return the string
conversion of the resulting value, on any failure raise a `ModelRetry`
carrying the diagnostic. -/
def df_query (query : String) (d : List Record) : Except ModelRetry String :=
  match pd_eval query d with
  | .ok v => .ok v.toStr
  | .error e => .error ⟨retryMessage query e⟩

/-- State-passing view of `pd.eval(query, target=d)`: with the default
`inplace=False` the evaluation returns its result and leaves the target
dataset untouched. -/
def pd_eval_target (query : String) (d : List Record) :
    (Except String Value) × List Record :=
  (pd_eval query d, d)

/-- State-passing view of the query tool: the tool forwards the dataset to the
evaluator and returns its outcome together with the (unchanged) dataset held
in the dependency bundle. -/
def df_query_st (query : String) (d : List Record) :
    (Except ModelRetry String) × List Record :=
  let r := pd_eval_target query d
  (match r.1 with
   | .ok v => .ok v.toStr
   | .error e => .error ⟨retryMessage query e⟩, r.2)

/-- The retry ceiling configured on the agent in the notebook,
`Agent(model := ..., retries := 10)`. -/
def agent_retries : Nat := 10

/-- Modelled from the spec: the run loop of the external Agent Orchestrator
(the agent framework is a collaborator, not code of this repository).  Each
iteration invokes the capability on the query chosen by the language model
(`qs` gives the query of each attempt); a success ends the run with the
answer, a retry signal re-prompts and retries, and once `maxAttempts`
capability invocations have failed the run surfaces a terminal failure
instead of looping.  The second component counts capability invocations. -/
def run_loop (tool : String → Except ModelRetry String) (qs : Nat → String) :
    Nat → Nat → (Except String String) × Nat
  | 0, used => (.error "retry limit exceeded", used)
  | fuel + 1, used =>
    match tool (qs used) with
    | .ok a => (.ok a, used + 1)
    | .error _ => run_loop tool qs fuel (used + 1)

/-- Modelled from the spec: `agent.run_sync` as configured by the notebook,
a run loop bounded by the configured retry ceiling. -/
def agent_run (tool : String → Except ModelRetry String) (qs : Nat → String) :
    (Except String String) × Nat :=
  run_loop tool qs agent_retries 0

/-- The question driver `ask_agent` of the notebook, with the orchestrator
abstracted as the sequence of outcomes of its potential invocations: print
the question, delegate once to the orchestrator run (index 0), and print the
answer.  The first component is the returned value (none beyond unit), the
second the lines written to standard output; a failure of the run propagates
unchanged, leaving only the question line printed. -/
def ask_agent (runResult : Nat → Except String String) (question : String) :
    (Except String Unit) × List String :=
  match runResult 0 with
  | .ok answer =>
      (.ok (), ["Question: " ++ question, "Answer: " ++ answer, "---"])
  | .error e => (.error e, ["Question: " ++ question])

instance {ε α : Type} [DecidableEq ε] [DecidableEq α] : DecidableEq (Except ε α) := fun x y =>
  match x, y with
  | .ok a, .ok b =>
    match decEq a b with
    | isTrue h => isTrue (h ▸ rfl)
    | isFalse h => isFalse (fun e => h (Except.ok.inj e))
  | .error a, .error b =>
    match decEq a b with
    | isTrue h => isTrue (h ▸ rfl)
    | isFalse h => isFalse (fun e => h (Except.error.inj e))
  | .ok _, .error _ => isFalse (fun e => Except.noConfusion e)
  | .error _, .ok _ => isFalse (fun e => Except.noConfusion e)

lemma length_gen_rows (n s : Nat) : (gen_rows n s).length = n := by
  simp [gen_rows]

lemma sorted_gen_rows (n s : Nat) : List.Sorted byDate (gen_rows n s) := by
  unfold gen_rows
  exact List.Pairwise.map _
    (fun a b (h : a < b) =>
      show byDate _ _ from Nat.add_le_add_left (Nat.le_of_lt h) start_date)
    (List.pairwise_lt_range n)

lemma generateData_fst (n s : Nat) : (generateData n s).1 = gen_rows n s :=
  List.Sorted.insertionSort_eq (sorted_gen_rows n s)

lemma getD_gen_rows (n s i : Nat) (h : i < n) :
    (gen_rows n s).getD i default = row (gen_columns n s) i := by
  simp [gen_rows, List.getD_eq_getElem?_getD, List.getElem?_range h]

lemma drawNats_mem_lt {b : Nat} (hb : 0 < b) (n s : Nat) :
    ∀ v ∈ (drawNats b n s).1, v < b := by
  intro v hv
  simp only [drawNats, List.mem_map, List.mem_range] at hv
  obtain ⟨i, -, rfl⟩ := hv
  exact Nat.mod_lt _ hb

lemma getD_lt_of_mem_lt {l : List Nat} {b : Nat} (hl : ∀ v ∈ l, v < b)
    (hb : 0 < b) (i : Nat) : l.getD i 0 < b := by
  rw [List.getD_eq_getElem?_getD]
  cases h : l[i]? with
  | none => simpa using hb
  | some v => exact hl v (List.getElem?_mem h)

lemma getD_drawNats_lt {b : Nat} (hb : 0 < b) (n s i : Nat) :
    ((drawNats b n s).1).getD i 0 < b :=
  getD_lt_of_mem_lt (drawNats_mem_lt hb n s) hb i

lemma getD_mem {α : Type} (l : List α) {i : Nat} (h : i < l.length) (d : α) :
    l.getD i d ∈ l := by
  rw [List.getD_eq_getElem?_getD, List.getElem?_eq_getElem h]
  exact List.getElem_mem h

lemma makeIdx_lt (n s i : Nat) : (gen_columns n s).makeIdx.getD i 0 < 10 :=
  getD_drawNats_lt (by decide) n _ i

lemma modelIdx_lt (n s i : Nat) : (gen_columns n s).modelIdx.getD i 0 < 6 :=
  getD_drawNats_lt (by decide) n _ i

lemma colorIdx_lt (n s i : Nat) : (gen_columns n s).colorIdx.getD i 0 < 7 :=
  getD_drawNats_lt (by decide) n _ i

lemma yearOff_lt (n s i : Nat) : (gen_columns n s).yearOff.getD i 0 < 8 :=
  getD_drawNats_lt (by decide) n _ i

lemma priceOff_lt (n s i : Nat) : (gen_columns n s).priceOff.getD i 0 < 6000001 :=
  getD_drawNats_lt (by decide) n _ i

lemma mileOff_lt (n s i : Nat) : (gen_columns n s).mileOff.getD i 0 < 100001 :=
  getD_drawNats_lt (by decide) n _ i

lemma engineIdx_lt (n s i : Nat) : (gen_columns n s).engineIdx.getD i 0 < 6 :=
  getD_drawNats_lt (by decide) n _ i

lemma fuelOff_lt (n s i : Nat) : (gen_columns n s).fuelOff.getD i 0 < 201 :=
  getD_drawNats_lt (by decide) n _ i

lemma spIdx_lt (n s i : Nat) : (gen_columns n s).spIdx.getD i 0 < 5 :=
  getD_drawNats_lt (by decide) n _ i

/-- C2: dataset generation is deterministic in the seed: two independent
generations, each started from the state seeded with 42 and using row count
1000, produce identical records with identical field values in identical
order. -/
theorem dataset_generation_deterministic : df_run1 = df_run2 := rfl

/-- C6: a dataset generated with row count `n` has exactly `n` records, record
`i` carries date `start_date + i` (a contiguous daily sequence from the fixed
epoch 2022-01-01), and the records are sorted ascending (non-decreasing) by
date. -/
theorem dataset_rowcount_dates_sorted (n s : Nat) :
    (generateData n s).1.length = n ∧
    (∀ i, i < n → (((generateData n s).1).getD i default).date = start_date + i) ∧
    List.Sorted byDate (generateData n s).1 := by
  refine ⟨?_, ?_, ?_⟩
  · rw [generateData_fst]
    exact length_gen_rows n s
  · intro i h
    rw [generateData_fst, getD_gen_rows n s i h]
    rfl
  · rw [generateData_fst]
    exact sorted_gen_rows n s

/-- Witness for C6 at the concrete inputs `n = 3`, `s = 7`, `i = 1`. -/
theorem dataset_rowcount_dates_sorted_witness :
    (generateData 3 7).1.length = 3 ∧
    (((generateData 3 7).1).getD 1 default).date = start_date + 1 :=
  ⟨(dataset_rowcount_dates_sorted 3 7).1,
   (dataset_rowcount_dates_sorted 3 7).2.1 1 (by decide)⟩

/-- C7: every record of a generated dataset conforms to the schema: each
categorical field is drawn from its fixed enumeration, and each numeric field
lies within its fixed bounds (Year in `[2015, 2022]`, Price in
`[20000.00, 80000.00]` dollars stored as cents, Mileage in `[0, 100000]`,
FuelEfficiency in `[20.0, 40.0]` stored as tenths), with the date at or after
the fixed epoch.  All fields are present and non-null by construction of
`Record`. -/
theorem schema_invariant (n s : Nat) (r : Record) (hr : r ∈ (generateData n s).1) :
    r.make ∈ makes ∧ r.model ∈ models ∧ r.color ∈ colors ∧
    r.salesPerson ∈ sales_people ∧ r.engineTenths ∈ engine_sizes ∧
    2015 ≤ r.year ∧ r.year ≤ 2022 ∧
    2000000 ≤ r.priceCents ∧ r.priceCents ≤ 8000000 ∧
    r.mileage ≤ 100000 ∧
    200 ≤ r.fuelTenths ∧ r.fuelTenths ≤ 400 ∧
    start_date ≤ r.date := by
  rw [generateData_fst] at hr
  unfold gen_rows at hr
  obtain ⟨i, -, rfl⟩ := List.mem_map.1 hr
  simp only [row]
  have h1 := makeIdx_lt n s i
  have h2 := modelIdx_lt n s i
  have h3 := colorIdx_lt n s i
  have h4 := yearOff_lt n s i
  have h5 := priceOff_lt n s i
  have h6 := mileOff_lt n s i
  have h7 := engineIdx_lt n s i
  have h8 := fuelOff_lt n s i
  have h9 := spIdx_lt n s i
  refine ⟨getD_mem makes h1 _, getD_mem models h2 _, getD_mem colors h3 _,
    getD_mem sales_people h9 _, getD_mem engine_sizes h7 _,
    ?_, ?_, ?_, ?_, ?_, ?_, ?_, Nat.le_add_right _ _⟩
  all_goals omega

/-- Witness for C7 at the concrete inputs `n = 2`, `s = 5` and the first
record of that dataset. -/
theorem schema_invariant_witness :
    ((generateData 2 5).1.getD 0 default).make ∈ makes ∧
    2015 ≤ ((generateData 2 5).1.getD 0 default).year :=
  ⟨(schema_invariant 2 5 _ (by decide!)).1,
   (schema_invariant 2 5 _ (by decide!)).2.2.2.2.2.1⟩

lemma pd_eval_shape (d : List Record) :
    pd_eval "df.shape[0]" d = .ok (.vNat d.length) := rfl

lemma pd_eval_len_fails (d : List Record) :
    pd_eval "len(df)" d = .error ("unsupported expression: " ++ "len(df)") := by
  have h1 : ¬ ("len(df)" = "df.shape[0]") := by decide
  have h2 : ¬ (("len(df)".startsWith meanQueryPre &&
      "len(df)".endsWith meanQuerySuf) = true) := by decide!
  unfold pd_eval
  rw [if_neg h1, if_neg h2]

lemma pd_eval_mean_lower (d : List Record) :
    pd_eval (meanQuery "price") d = .error ("KeyError: " ++ "price") := by
  have h1 : ¬ (meanQuery "price" = "df.shape[0]") := by decide
  have h2 : ((meanQuery "price").startsWith meanQueryPre &&
      (meanQuery "price").endsWith meanQuerySuf) = true := by decide!
  have h3 : ((meanQuery "price").drop 4).dropRight 9 = "price" := by decide!
  unfold pd_eval
  rw [if_neg h1, if_pos h2]
  simp only [h3]
  rfl

lemma pd_eval_mean_upper (d : List Record) :
    pd_eval (meanQuery "Price") d = .ok (.vRat (listMean (d.map priceQ))) := by
  have h1 : ¬ (meanQuery "Price" = "df.shape[0]") := by decide
  have h2 : ((meanQuery "Price").startsWith meanQueryPre &&
      (meanQuery "Price").endsWith meanQuerySuf) = true := by decide!
  have h3 : ((meanQuery "Price").drop 4).dropRight 9 = "Price" := by decide!
  unfold pd_eval
  rw [if_neg h1, if_pos h2]
  simp only [h3]
  rfl

/-- C1: whenever evaluation of a query against a dataset fails for any
reason, the query tool neither returns normally nor propagates the raw
error: it raises exactly the retry signal whose diagnostic message contains
the original query text. -/
theorem df_query_retry_on_failure (q : String) (d : List Record) (e : String)
    (h : pd_eval q d = .error e) :
    df_query q d = .error ⟨retryMessage q e⟩ ∧
    ∃ p t, retryMessage q e = p ++ q ++ t := by
  constructor
  · unfold df_query
    rw [h]
  · refine ⟨"query: `", "` is not a valid query. Reason: `" ++ e ++ "`", ?_⟩
    unfold retryMessage
    simp [String.append_assoc]

/-- Witness for C1 at the failing query `garbage` on the empty dataset. -/
theorem df_query_retry_on_failure_witness :
    df_query "garbage" [] =
      .error ⟨retryMessage "garbage" ("unsupported expression: " ++ "garbage")⟩ :=
  (df_query_retry_on_failure "garbage" []
    ("unsupported expression: " ++ "garbage") (by decide!)).1

/-- C3 counterexample: on the concrete empty dataset the query `len(df)`
does not succeed with the decimal row count; the evaluator rejects the
function call and the tool raises the retry signal, exactly as the notebook
transcript shows (`len(df)` retried and replaced by `df.shape[0]`). -/
theorem len_query_fails_counterexample :
    df_query "len(df)" [] ≠ .ok (toString (List.length ([] : List Record))) ∧
    df_query "len(df)" [] =
      .error ⟨retryMessage "len(df)" ("unsupported expression: " ++ "len(df)")⟩ := by
  have he : df_query "len(df)" [] =
      .error ⟨retryMessage "len(df)" ("unsupported expression: " ++ "len(df)")⟩ := by
    unfold df_query
    rw [pd_eval_len_fails]
  refine ⟨?_, he⟩
  intro hc
  rw [he] at hc
  exact Except.noConfusion hc

/-- C3 (amended): the row-count query accepted by the restricted evaluator is
`df.shape[0]`: on every dataset it succeeds and returns the decimal string
representation of the row count, while `len(df)` raises a retry signal; in
general a successful evaluation makes the tool return the string conversion
of the value the restricted evaluator produced. -/
theorem df_query_rowcount_and_success (d : List Record) :
    df_query "df.shape[0]" d = .ok (toString d.length) ∧
    df_query "len(df)" d =
      .error ⟨retryMessage "len(df)" ("unsupported expression: " ++ "len(df)")⟩ ∧
    ∀ (q : String) (v : Value), pd_eval q d = .ok v → df_query q d = .ok v.toStr := by
  refine ⟨rfl, ?_, ?_⟩
  · unfold df_query
    rw [pd_eval_len_fails d]
  · intro q v h
    unfold df_query
    rw [h]

/-- Witness for C3 (amended) on the empty dataset and on a one-record
dataset. -/
theorem df_query_rowcount_and_success_witness :
    df_query "df.shape[0]" [] = .ok "0" ∧
    df_query "df.shape[0]" [default] = .ok (Value.toStr (.vNat 1)) :=
  ⟨(df_query_rowcount_and_success []).1,
   (df_query_rowcount_and_success [default]).2.2 "df.shape[0]" (.vNat 1) (by decide!)⟩

/-- C4: column names are case-sensitive: on the generated dataset the query
for the mean of `price` raises a retry signal (the schema column is `Price`),
while the query for the mean of `Price` succeeds and returns the string of
the exact mean of the Price column; the returned mean is correct: multiplied
by the row count 1000 it gives back the column sum. -/
theorem price_mean_case_sensitivity :
    df_query (meanQuery "price") df =
      .error ⟨retryMessage (meanQuery "price") ("KeyError: " ++ "price")⟩ ∧
    df_query (meanQuery "Price") df =
      .ok (Value.toStr (.vRat (listMean (df.map priceQ)))) ∧
    listMean (df.map priceQ) * 1000 = (df.map priceQ).sum ∧
    df.length = 1000 := by
  have hlen : df.length = 1000 := by
    rw [df, generateData_fst]
    exact length_gen_rows n_rows (np_random_seed 42)
  refine ⟨?_, ?_, ?_, hlen⟩
  · unfold df_query
    rw [pd_eval_mean_lower df]
  · unfold df_query
    rw [pd_eval_mean_upper df]
  · unfold listMean
    have hl : ((df.map priceQ).length : ℚ) = (1000 : ℚ) := by
      rw [List.length_map, hlen]
      norm_num
    rw [hl]
    rw [div_mul_cancel₀ _ (by norm_num : (1000 : ℚ) ≠ 0)]

lemma run_loop_all_fail (tool : String → Except ModelRetry String) (qs : Nat → String) :
    ∀ fuel used, (∀ i, i < fuel → ∃ m, tool (qs (used + i)) = .error m) →
      run_loop tool qs fuel used = (.error "retry limit exceeded", used + fuel) := by
  intro fuel
  induction fuel with
  | zero =>
    intro used h
    simp [run_loop]
  | succ k ih =>
    intro used h
    obtain ⟨m, hm⟩ := h 0 (Nat.succ_pos k)
    rw [Nat.add_zero] at hm
    unfold run_loop
    rw [hm]
    have h2 : ∀ i, i < k → ∃ m, tool (qs (used + 1 + i)) = .error m := by
      intro i hi
      have e : used + 1 + i = used + (i + 1) := by omega
      rw [e]
      exact h (i + 1) (by omega)
    have e2 : used + 1 + k = used + (k + 1) := by omega
    rw [ih (used + 1) h2, e2]

/-- C5: the retry ceiling is 10: the agent is configured with ten attempts,
and for a question whose every attempted query fails evaluation, the
orchestrator run terminates with a terminal failure after exactly ten
capability invocations. -/
theorem retry_ceiling_ten (tool : String → Except ModelRetry String)
    (qs : Nat → String)
    (h : ∀ i, i < agent_retries → ∃ m, tool (qs i) = .error m) :
    agent_retries = 10 ∧
    agent_run tool qs = (.error "retry limit exceeded", 10) := by
  refine ⟨rfl, ?_⟩
  unfold agent_run
  have h0 : ∀ i, i < agent_retries → ∃ m, tool (qs (0 + i)) = .error m := by
    intro i hi
    rw [Nat.zero_add]
    exact h i hi
  have := run_loop_all_fail tool qs agent_retries 0 h0
  rw [this, Nat.zero_add]
  rfl

/-- Witness for C5: the query tool on the empty dataset with a model that
always proposes the same invalid query. -/
theorem retry_ceiling_ten_witness :
    agent_run (fun q => df_query q []) (fun _ => "oops") =
      (.error "retry limit exceeded", 10) :=
  (retry_ceiling_ten (fun q => df_query q []) (fun _ => "oops")
    (fun i _ =>
      ⟨⟨retryMessage "oops" ("unsupported expression: " ++ "oops")⟩, by
        show df_query "oops" [] =
          Except.error ⟨retryMessage "oops" ("unsupported expression: " ++ "oops")⟩
        decide!⟩)).2

/-- C8: the dataset is never mutated by the query tool: for every query,
whether evaluation succeeds or signals a retry, the state-passing view of the
tool returns the bound dataset unchanged while producing the same outcome as
the tool itself. -/
theorem query_tool_frame (q : String) (d : List Record) :
    (df_query_st q d).2 = d ∧ (df_query_st q d).1 = df_query q d := by
  constructor
  · rfl
  · unfold df_query_st pd_eval_target df_query
    rfl

/-- C9: the question driver returns no value beyond unit, writes the question
and the final answer to standard output, consults only the single
orchestrator run (no retry logic of its own: its behaviour depends only on
invocation 0), and propagates any failure of the run unchanged. -/
theorem ask_agent_contract (runResult runResult2 : Nat → Except String String)
    (q : String) :
    (∀ a, runResult 0 = .ok a →
      ask_agent runResult q =
        (.ok (), ["Question: " ++ q, "Answer: " ++ a, "---"])) ∧
    (∀ e, runResult 0 = .error e →
      ask_agent runResult q = (.error e, ["Question: " ++ q])) ∧
    (runResult 0 = runResult2 0 →
      ask_agent runResult q = ask_agent runResult2 q) := by
  refine ⟨?_, ?_, ?_⟩
  · intro a h
    unfold ask_agent
    rw [h]
  · intro e h
    unfold ask_agent
    rw [h]
  · intro h
    unfold ask_agent
    rw [h]

/-- Witness for C9: a run that answers, and a run that fails terminally. -/
theorem ask_agent_contract_witness :
    ask_agent (fun _ => .ok "1000") "How many rows are in this dataset?" =
      (.ok (), ["Question: " ++ "How many rows are in this dataset?",
                "Answer: " ++ "1000", "---"]) ∧
    ask_agent (fun _ => .error "retry limit exceeded") "q" =
      (.error "retry limit exceeded", ["Question: " ++ "q"]) :=
  ⟨(ask_agent_contract (fun _ => .ok "1000") (fun _ => .ok "1000")
      "How many rows are in this dataset?").1 "1000" rfl,
   (ask_agent_contract (fun _ => .error "retry limit exceeded")
      (fun _ => .error "retry limit exceeded") "q").2.1 "retry limit exceeded" rfl⟩

lemma map_field_generateData {α : Type} (f : Record → α) (n s : Nat) :
    ((generateData n s).1).map f =
      (List.range n).map (fun i => f (row (gen_columns n s) i)) := by
  rw [generateData_fst]
  unfold gen_rows
  rw [List.map_map]
  rfl

lemma map_field_getD_zero {α : Type} (f : Record → α) (d : α) (n s : Nat)
    (hn : 0 < n) :
    (((generateData n s).1).map f).getD 0 d = f (row (gen_columns n s) 0) := by
  rw [map_field_generateData, List.getD_eq_getElem?_getD, List.getElem?_map,
    List.getElem?_range hn]
  rfl

lemma second_run_field_ne {α : Type} (f : Record → α) (d : α)
    (hne : ¬ f (row (gen_columns n_rows df_state1) 0) =
        f (row (gen_columns n_rows (np_random_seed 42)) 0)) :
    ¬ df_second.map f = df.map f := by
  intro h
  apply hne
  unfold df_second df at h
  have h0 := congrArg (fun l => l.getD 0 d) h
  simp only at h0
  rwa [map_field_getD_zero f d n_rows df_state1 (by decide),
    map_field_getD_zero f d n_rows (np_random_seed 42) (by decide)] at h0

/-- C10: generation reads and advances the global random state rather than
taking a seed parameter: the state after the seeded generation differs from
the seeded state; generation started from equal states reproduces the
dataset exactly; and a second generation from the advanced state reproduces
only the Date column while each of the nine randomly drawn columns differs
from the first run. -/
theorem global_state_reuse :
    df_state1 ≠ np_random_seed 42 ∧
    (∀ s t : Nat, s = t → (generateData n_rows s).1 = (generateData n_rows t).1) ∧
    df_second.map Record.date = df.map Record.date ∧
    df_second.map Record.make ≠ df.map Record.make ∧
    df_second.map Record.model ≠ df.map Record.model ∧
    df_second.map Record.color ≠ df.map Record.color ∧
    df_second.map Record.year ≠ df.map Record.year ∧
    df_second.map Record.priceCents ≠ df.map Record.priceCents ∧
    df_second.map Record.mileage ≠ df.map Record.mileage ∧
    df_second.map Record.engineTenths ≠ df.map Record.engineTenths ∧
    df_second.map Record.fuelTenths ≠ df.map Record.fuelTenths ∧
    df_second.map Record.salesPerson ≠ df.map Record.salesPerson := by
  refine ⟨by decide!, fun s t h => by rw [h], ?_,
    second_run_field_ne Record.make "" (by decide!),
    second_run_field_ne Record.model "" (by decide!),
    second_run_field_ne Record.color "" (by decide!),
    second_run_field_ne Record.year 0 (by decide!),
    second_run_field_ne Record.priceCents 0 (by decide!),
    second_run_field_ne Record.mileage 0 (by decide!),
    second_run_field_ne Record.engineTenths 0 (by decide!),
    second_run_field_ne Record.fuelTenths 0 (by decide!),
    second_run_field_ne Record.salesPerson "" (by decide!)⟩
  unfold df_second df
  rw [map_field_generateData, map_field_generateData]
  simp only [row]

/-- Witness for C10 discharging the equal-states hypothesis at state 0. -/
theorem global_state_reuse_witness :
    (generateData n_rows 0).1 = (generateData n_rows 0).1 :=
  global_state_reuse.2.1 0 0 rfl
